import Mathlib

/-!
Verification development for the `client_pooling` module of the
Atlas-Communication repository (`src/src/client_pooling/mod.rs`).

Shallow embedding conventions:
* `NodeId(u32)` is modelled as `Nat`.
* `Arc<ConnectedPeer<T>>` objects are modelled by their observable state; a
  mutation of the shared object is modelled by returning the updated state.
* `Mutex<Option<Vec<T>>>` becomes `Option (List T)`; `AtomicBool` becomes
  `Bool`; `AtomicUsize` becomes `Nat`.
* `DashMap<u32, _>` and `BTreeMap<usize, _>` are modelled as association
  lists `List (Nat × _)` (the `BTreeMap` is kept sorted by key so that
  iteration order matches the source's key order).
* `Instant`-based metrics calls are pure side effects and are dropped.
* Channels (`ChannelSyncRx`) are modelled by the list of queued items plus,
  where disconnection matters, the number of live producer handles.
* The `for index in 0..usize::MAX` loop of `collect_requests` is modelled
  with an explicit fuel argument standing for the remaining iterations of
  that bounded range; exhausting the fuel corresponds to the `for` loop
  finishing its range and falling through to the post-loop code.
-/

namespace AtlasComm

/-- Mirrors `enum ClientPoolError` at the bottom of
`src/src/client_pooling/mod.rs`. -/
inductive ClientPoolError where
  | ClosePool
  | UnpooledConnectionClosed (id : Nat)
  | PooledConnectionClosed (id : Nat)
  | FailedToAllocateClientPoolID
  | NoClientsConnected
deriving DecidableEq, Repr

/-- Mirrors `enum ConnectedPeer<T>`: a `PoolConnection` holds
`queue: Mutex<Option<Vec<T>>>` and `disconnected: AtomicBool`; an
`UnpooledConnection` holds a cloned sender of the shared replica channel
(the channel itself is modelled separately where it matters). -/
inductive ConnectedPeer (T : Type) where
  | PoolConnection (client_id : Nat) (queue : Option (List T)) (disconnected : Bool)
  | UnpooledConnection (client_id : Nat)
deriving DecidableEq, Repr

namespace ConnectedPeer

/-- Mirrors `ConnectedPeer::client_id`. -/
def client_id : ConnectedPeer T → Nat
  | .PoolConnection id _ _ => id
  | .UnpooledConnection id => id

/-- Mirrors `ConnectedPeer::is_dc`: loads the `disconnected` flag of a
pooled connection; an unpooled connection always reports `false`. -/
def is_dc : ConnectedPeer T → Bool
  | .PoolConnection _ _ disconnected => disconnected
  | .UnpooledConnection _ => false

/-- Mirrors `ConnectedPeer::disconnect` exactly as written in the source:
for a `PoolConnection` it executes `disconnected.store(false, Relaxed)`
(the literal in the source is `false`) and leaves the queue untouched; for
an `UnpooledConnection` it does nothing. -/
def disconnect : ConnectedPeer T → ConnectedPeer T
  | .PoolConnection id queue _ => .PoolConnection id queue false
  | .UnpooledConnection id => .UnpooledConnection id

/-- Mirrors `ConnectedPeer::dump_requests`: on a pooled connection whose
queue option is `None` the replacement vector is handed back as `Err`;
otherwise the buffered requests are swapped out for the replacement vector
(`mem::replace`). An unpooled connection yields `Ok(vec![])`. The updated
peer state is returned alongside. -/
def dump_requests (p : ConnectedPeer T) (replacement_vec : List T) :
    Except (List T) (List T) × ConnectedPeer T :=
  match p with
  | .PoolConnection id queue dc =>
    match queue with
    | none => (.error replacement_vec, .PoolConnection id none dc)
    | some rqs => (.ok rqs, .PoolConnection id (some replacement_vec) dc)
  | .UnpooledConnection id => (.ok [], .UnpooledConnection id)

/-- Mirrors `ConnectedPeer::push_request`: a pooled connection errors with
`PooledConnectionClosed` when its queue option is `None` and otherwise
appends the message; an unpooled connection sends on the shared replica
channel via `send_return`, which succeeds as long as the channel has a live
receiver — `ReplicaHandling` permanently retains `channel_rx_replica`, so
that send is modelled as succeeding. -/
def push_request (p : ConnectedPeer T) (msg : T) :
    Except ClientPoolError Unit × ConnectedPeer T :=
  match p with
  | .PoolConnection id queue dc =>
    match queue with
    | none => (.error (.PooledConnectionClosed id), .PoolConnection id none dc)
    | some sender => (.ok (), .PoolConnection id (some (sender ++ [msg])) dc)
  | .UnpooledConnection id => (.ok (), .UnpooledConnection id)

end ConnectedPeer

/-- Sequences `push_request` over a list of messages, recording whether
every push returned `Ok`. -/
def push_all (p : ConnectedPeer T) : List T → Bool × ConnectedPeer T
  | [] => (true, p)
  | m :: rest =>
    match p.push_request m with
    | (.ok _, p2) => push_all p2 rest
    | (.error _, p2) => (false, (push_all p2 rest).2)

/-- Mirrors `enum NodeType` of `atlas_common::node_id` as used by
`PeerIncomingRqHandling::new`. -/
inductive NodeType where
  | Replica
  | Client
deriving DecidableEq, Repr

/-- Mirrors the client-channel part of `PeerIncomingRqHandling::new`: a
replica node allocates the bounded sync channel for client batches (so
`client_rx` is `Some` of a channel, initially empty), while a client node
leaves it as `None`. The channel is modelled by its queued batches. -/
def mkClientRx (T : Type) (node_type : NodeType) : Option (List (List T)) :=
  match node_type with
  | .Replica => some []
  | .Client => none

/-- Mirrors `NodeIncomingRqHandler::rqs_len_from_clients`: `0` when there is
no client channel, otherwise the channel length. -/
def rqs_len_from_clients (client_rx : Option (List (List T))) : Nat :=
  match client_rx with
  | none => 0
  | some rx => rx.length

/-- Mirrors `NodeIncomingRqHandling::receive_from_clients` (which first runs
`get_client_rx`).  The channel argument is its state at the moment the call
would return.  `none` in the result models the blocking `recv()` still
waiting (no timeout given, channel empty); disconnection of this channel
cannot occur because the handling keeps `client_tx` alive.  With a timeout,
an empty channel yields `recv_timeout = Err(Timeout)` which the source maps
to `Ok(vec![])`. -/
def receive_from_clients (client_rx : Option (List (List T))) (timeout : Option Nat) :
    Option (Except ClientPoolError (List T)) :=
  match client_rx with
  | none => some (.error .NoClientsConnected)
  | some ch =>
    match timeout, ch with
    | none, [] => none
    | none, v :: _ => some (.ok v)
    | some _, [] => some (.ok [])
    | some _, v :: _ => some (.ok v)

/-- Mirrors `NodeIncomingRqHandling::try_receive_from_clients`: `Err` with
`NoClientsConnected` when there is no client channel; `Ok(None)` when the
channel is empty (`TryRecvError::ChannelEmpty`); otherwise the first queued
batch. -/
def try_receive_from_clients (client_rx : Option (List (List T))) :
    Except ClientPoolError (Option (List T)) :=
  match client_rx with
  | none => .error .NoClientsConnected
  | some [] => .ok none
  | some (v :: _) => .ok (some v)

/-- Mirrors `TryRecvError` of `atlas_common::channel` as matched by the
receive paths of this module. -/
inductive TryRecvErr where
  | Timeout
  | ChannelEmpty
  | ChannelDc
deriving DecidableEq, Repr

/-- Models the consumer side of the unbounded sync channel created in
`ReplicaHandling::new`: the queued `(message, instant)` pairs (instants
dropped) together with the number of live producer handles
(`ChannelSyncTx` clones). -/
structure SyncChannelRx (T : Type) where
  queue : List T
  producers : Nat
deriving DecidableEq, Repr

/-- Models `ChannelSyncRx::recv_timeout` at the instant it returns: a queued
message is delivered; an empty channel with no live producer reports
`ChannelDc`; an empty channel that still has a producer reports `Timeout`
once the timeout expires. -/
def chan_recv_timeout (c : SyncChannelRx T) : Except TryRecvErr T :=
  match c.queue with
  | t :: _ => .ok t
  | [] => if c.producers = 0 then .error .ChannelDc else .error .Timeout

/-- Possible outcomes of `ReplicaHandling::receive_from_replicas`:
a returned value (`Some message` or `None`), the blocking `recv()` still
waiting, or a panic (`unwrap` failure / the `unreachable!()` arm). -/
inductive RecvOutcome (T : Type) where
  | delivered (value : Option T)
  | blocked
  | panicked
deriving DecidableEq, Repr

/-- Mirrors `ReplicaHandling::receive_from_replicas`: without a timeout it
calls `recv().unwrap()` (blocking while the channel is live and empty,
panicking if the channel is disconnected); with a timeout it matches
`recv_timeout`, mapping `Timeout`/`ChannelEmpty` to `None` and hitting
`unreachable!()` on `ChannelDc`. -/
def receive_from_replicas (c : SyncChannelRx T) (timeout : Option Nat) :
    RecvOutcome T :=
  match timeout with
  | none =>
    match c.queue with
    | t :: _ => .delivered (some t)
    | [] => if c.producers = 0 then .panicked else .blocked
  | some _ =>
    match chan_recv_timeout c with
    | .ok t => .delivered (some t)
    | .error .Timeout => .delivered none
    | .error .ChannelEmpty => .delivered none
    | .error .ChannelDc => .panicked

/-- Association-list model of `DashMap::insert`: returns the previously
stored value for the key, if any, and the updated map. -/
def mapInsert (m : List (Nat × α)) (k : Nat) (v : α) :
    Option α × List (Nat × α) :=
  match m.lookup k with
  | none => (none, m ++ [(k, v)])
  | some old => (some old, m.map (fun kv => if kv.1 = k then (k, v) else kv))

/-- Mirrors the mutable state of `struct ReplicaHandling<T>`: the map of
connected peers and the connected-peer counter (the shared replica channel
is modelled separately by `SyncChannelRx`). -/
structure ReplicaHandling (T : Type) where
  connected_clients : List (Nat × ConnectedPeer T)
  connected_client_count : Nat
deriving DecidableEq, Repr

/-- Mirrors `ReplicaHandling::init_client`: builds a fresh
`UnpooledConnection`, inserts it into the map, increments the counter only
when no previous entry existed, and calls `disconnect` on a displaced old
entry.  Returns the fresh peer, the displaced old peer after its
`disconnect` call (what prior holders of that `Arc` now observe), and the
updated handling state. -/
def ReplicaHandling.init_client (s : ReplicaHandling T) (peer_id : Nat) :
    ConnectedPeer T × Option (ConnectedPeer T) × ReplicaHandling T :=
  let peer : ConnectedPeer T := .UnpooledConnection peer_id
  let ins := mapInsert s.connected_clients peer_id peer
  match ins.1 with
  | none =>
    (peer, none,
      { connected_clients := ins.2,
        connected_client_count := s.connected_client_count + 1 })
  | some old =>
    (peer, some old.disconnect,
      { connected_clients := ins.2,
        connected_client_count := s.connected_client_count })

/-- Mirrors the sleep-interval computation in `ConnectedPeersPool::start`:
`three_quarters_sleep = (batch_sleep_micros / 4) * 3` and
`five_quarters_sleep = (batch_sleep_micros / 4) * 5`, with `/` the integer
division of `u64`; `fastrand::u64` then draws uniformly from the closed
interval between them. -/
def batch_sleep_bounds (batch_sleep_micros : Nat) : Nat × Nat :=
  ((batch_sleep_micros / 4) * 3, (batch_sleep_micros / 4) * 5)

/-- Mirrors the mutable state of `struct ConnectedPeersPool<T>` that the
claims depend on: `connected_clients: Mutex<Vec<Arc<ConnectedPeer<T>>>>`
and `client_limit`; the batch parameters are passed to the operations as
arguments, matching how `collect_requests` receives `batch_target_size`. -/
structure PoolState (T : Type) where
  pool_id : Nat
  connected_clients : List (ConnectedPeer T)
  client_limit : Nat
deriving DecidableEq, Repr

/-- Mirrors `ConnectedPeersPool::attempt_to_add`: push the client when the
list is strictly below `client_limit`, otherwise hand the client back as
`Err`. -/
def PoolState.attempt_to_add (p : PoolState T) (client : ConnectedPeer T) :
    Except (ConnectedPeer T) (PoolState T) :=
  if p.connected_clients.length < p.client_limit then
    .ok { p with connected_clients := p.connected_clients ++ [client] }
  else
    .error client

/-- Mirrors the mutable state of `struct ConnectedPeersGroup<T>` used by the
claims: the client connection cache (`DashMap`), the connected-client
counter, the pool map (`BTreeMap`, kept sorted by key), and the
configuration fields read by `init_client`. -/
structure ConnectedPeersGroup (T : Type) where
  client_pools : List (Nat × PoolState T)
  client_connections_cache : List (Nat × ConnectedPeer T)
  connected_clients : Nat
  per_client_cache : Nat
  batch_target_size : Nat
  clients_per_pool : Nat
  pool_id_counter : Nat
deriving DecidableEq, Repr

/-- Insertion into the sorted association list modelling a `BTreeMap`. -/
def btreeInsert (m : List (Nat × α)) (k : Nat) (v : α) : List (Nat × α) :=
  match m with
  | [] => [(k, v)]
  | (k0, v0) :: rest =>
    if k < k0 then (k, v) :: (k0, v0) :: rest
    else if k = k0 then (k, v) :: rest
    else (k0, v0) :: btreeInsert rest k v

/-- Mirrors the `loop` of `ConnectedPeersGroup::get_pool_id`: candidates are
drawn from `pool_id_counter` by `fetch_add`; because `it_count` is compared
against `IT_LIMIT = 100` before the membership test, at most 99 candidates
are examined before `FailedToAllocateClientPoolID` is returned.  Returns
the chosen id and the advanced counter. -/
def get_pool_id_loop (pools : List (Nat × PoolState T)) :
    Nat → Nat → Except ClientPoolError (Nat × Nat)
  | 0, _ => .error .FailedToAllocateClientPoolID
  | fuel + 1, counter =>
    if (pools.lookup counter).isNone then .ok (counter, counter + 1)
    else get_pool_id_loop pools fuel (counter + 1)

/-- Mirrors `ConnectedPeersGroup::get_pool_id` (99 candidates examined, see
`get_pool_id_loop`). -/
def get_pool_id (g : ConnectedPeersGroup T) : Except ClientPoolError (Nat × Nat) :=
  get_pool_id_loop g.client_pools 99 g.pool_id_counter

/-- Mirrors the `for (_pool_id, pool) in &*guard` walk of
`ConnectedPeersGroup::init_client`: try `attempt_to_add` on each pool in
key order, returning the updated pool map on the first success. -/
def tryPools (pools : List (Nat × PoolState T)) (client : ConnectedPeer T) :
    Option (List (Nat × PoolState T)) :=
  match pools with
  | [] => none
  | (k, p) :: rest =>
    match p.attempt_to_add client with
    | .ok p2 => some ((k, p2) :: rest)
    | .error client2 =>
      match tryPools rest client2 with
      | some rest2 => some ((k, p) :: rest2)
      | none => none

/-- Result of `ConnectedPeersGroup::init_client`: the fresh peer handed to
the caller, the state of a displaced cache entry after its `disconnect`
call, and the updated group — `none` models the two `panic!` arms (pool-id
allocation failure, or `attempt_to_add` failing on the freshly created
pool). -/
structure InitClientResult (T : Type) where
  peer : ConnectedPeer T
  old_conn : Option (ConnectedPeer T)
  group : Option (ConnectedPeersGroup T)
deriving DecidableEq, Repr

/-- Mirrors `ConnectedPeersGroup::init_client`: build a fresh pooled peer
(queue = `Some` empty vector, `disconnected = false`), unconditionally
`fetch_add(1)` the connected-client counter, insert into the cache
(disconnecting any displaced entry), try every existing pool in key order,
and otherwise allocate a new pool, add the client to it and insert it into
the pool map (the spawned worker thread is outside this model). -/
def ConnectedPeersGroup.init_client (g : ConnectedPeersGroup T) (peer_id : Nat) :
    InitClientResult T :=
  let connected_client : ConnectedPeer T :=
    .PoolConnection peer_id (some []) false
  let count2 := g.connected_clients + 1
  let ins := mapInsert g.client_connections_cache peer_id connected_client
  let old_conn := ins.1.map ConnectedPeer.disconnect
  let g2 := { g with
    connected_clients := count2,
    client_connections_cache := ins.2 }
  match tryPools g2.client_pools connected_client with
  | some pools2 =>
    { peer := connected_client, old_conn,
      group := some { g2 with client_pools := pools2 } }
  | none =>
    match get_pool_id g2 with
    | .error _ => { peer := connected_client, old_conn, group := none }
    | .ok (pool_id, counter2) =>
      let pool : PoolState T :=
        { pool_id, connected_clients := [], client_limit := g2.clients_per_pool }
      match pool.attempt_to_add connected_client with
      | .error _ => { peer := connected_client, old_conn, group := none }
      | .ok pool2 =>
        { peer := connected_client, old_conn,
          group := some { g2 with
            client_pools := btreeInsert g2.client_pools pool_id pool2,
            pool_id_counter := counter2 } }

/-- Mirrors `ConnectedPeersGroup::del_cached_clients`: remove each id from
the cache and `fetch_sub` the counter by the length of the list (modelled
with truncated `Nat` subtraction; the source's `AtomicUsize` would wrap on
underflow, which no claim exercises). -/
def del_cached_clients (cache : List (Nat × ConnectedPeer T)) (count : Nat)
    (clients : List Nat) : List (Nat × ConnectedPeer T) × Nat :=
  (clients.foldl (fun c id => c.filter (fun kv => kv.1 ≠ id)) cache,
   count - clients.length)

/-- Models `Vec::swap_remove i`: element `i` is replaced by the last element
and the last element is popped. -/
def swapRemove (l : List α) (i : Nat) : List α :=
  match l.getLast? with
  | none => l
  | some last => (l.set i last).dropLast

/-- Mirrors the dead-entry removal at the end of
`ConnectedPeersPool::collect_requests`: for each dead-listed id, find its
first position in the sink list (skipping ids already removed) and
`swap_remove` it. -/
def removeDced (pool : List (ConnectedPeer T)) (dced : List Nat) :
    List (ConnectedPeer T) :=
  dced.foldl
    (fun acc node =>
      match acc.findIdx? (fun x => x.client_id == node) with
      | none => acc
      | some i => swapRemove acc i)
    pool

/-- Mirrors the `for index in 0..ind_limit` loop body of
`ConnectedPeersPool::collect_requests` over the snapshot `connected_peers`
(the shared peer objects, so dumps update the list in place via `set`).
Arguments: `len` is the snapshot length, `target` the batch target size,
`timeout` tells whether the batch timeout had expired when the boundary
check at the given index ran, `start_point` is the random walk origin;
then fuel (remaining iterations of the bounded range), the current
`index`, the peers, the accumulated `batch`, and the dead-list `dced`.
A disconnected peer, or one whose dump fails, is dead-listed and skipped;
after a successful dump the batch-size and timeout checks run only when
`index % len == 0` (as written in the source).  The replacement vector is
always empty at each dump because `Vec::append` drains the dumped vector
into the batch before it is reused. -/
def collect_loop (len target : Nat) (timeout : Nat → Bool) (start_point : Nat) :
    Nat → Nat → List (ConnectedPeer T) → List T → List Nat →
    List (ConnectedPeer T) × List T × List Nat
  | 0, _, peers, batch, dced => (peers, batch, dced)
  | fuel + 1, index, peers, batch, dced =>
    let pos := (start_point + index) % len
    let client := peers.getD pos (.UnpooledConnection 0)
    if client.is_dc then
      collect_loop len target timeout start_point fuel (index + 1)
        peers batch (dced ++ [client.client_id])
    else
      match client.dump_requests [] with
      | (.error _, c2) =>
        collect_loop len target timeout start_point fuel (index + 1)
          (peers.set pos c2) batch (dced ++ [client.client_id])
      | (.ok rqs, c2) =>
        let batch2 := batch ++ rqs
        let peers2 := peers.set pos c2
        if index % len == 0 then
          if target ≤ batch2.length then (peers2, batch2, dced)
          else if timeout index then (peers2, batch2, dced)
          else collect_loop len target timeout start_point fuel (index + 1)
            peers2 batch2 dced
        else
          collect_loop len target timeout start_point fuel (index + 1)
            peers2 batch2 dced

/-- Outcome of `ConnectedPeersPool::collect_requests` together with the
state it leaves behind: the pool's sink list, the owning group's client
connection cache, and the group's connected-client counter. -/
structure CollectOutcome (T : Type) where
  result : Except ClientPoolError (List T)
  pool : List (ConnectedPeer T)
  cache : List (Nat × ConnectedPeer T)
  count : Nat
deriving Repr

/-- Mirrors `ConnectedPeersPool::collect_requests`: an empty snapshot
returns `ClosePool` immediately; otherwise the collection walk runs
(`collect_loop`); if the walk dead-listed any sink, the dead entries are
removed from the sink list by id (swap-remove), the group purges those ids
from its cache and decrements its counter, and `ClosePool` is returned
when the removal left the sink list empty.  `fuel` stands for the
iterations of the source's `0..usize::MAX` range and `timeout`/`start_point`
for the clock and the random start. -/
def collect_requests (fuel : Nat) (timeout : Nat → Bool) (start_point : Nat)
    (batch_target_size : Nat) (pool : List (ConnectedPeer T))
    (cache : List (Nat × ConnectedPeer T)) (count : Nat) : CollectOutcome T :=
  if pool.length = 0 then
    { result := .error .ClosePool, pool, cache, count }
  else
    let out := collect_loop pool.length batch_target_size timeout start_point
      fuel 0 pool [] []
    let peers := out.1
    let batch := out.2.1
    let dced := out.2.2
    if dced.isEmpty then
      { result := .ok batch, pool := peers, cache, count }
    else
      let pool2 := removeDced peers dced
      let purged := del_cached_clients cache count dced
      if pool2.isEmpty then
        { result := .error .ClosePool, pool := pool2,
          cache := purged.1, count := purged.2 }
      else
        { result := .ok batch, pool := pool2,
          cache := purged.1, count := purged.2 }

/-- Concrete pooled sink for peer id 5 (live, empty buffer), as created by
`ConnectedPeersGroup::init_client`. -/
def c3Old : ConnectedPeer Nat := .PoolConnection 5 (some []) false

/-- Concrete `ConnectedPeersGroup` state in which peer 5 is already
registered: it sits in the connection cache and in pool 0 (capacity 2), and
the connected-client counter reads 1. -/
def c3Group : ConnectedPeersGroup Nat :=
  { client_pools := [(0, { pool_id := 0, connected_clients := [c3Old],
                           client_limit := 2 })],
    client_connections_cache := [(5, c3Old)],
    connected_clients := 1,
    per_client_cache := 16384,
    batch_target_size := 4,
    clients_per_pool := 2,
    pool_id_counter := 1 }

/-! ### Helper lemmas -/

/-- Pushing a list of messages onto a live pooled connection succeeds
message by message and appends the messages, in order, to the buffered
queue. -/
theorem push_all_pool_connection (id : Nat) (d : Bool) (msgs l : List T) :
    push_all (.PoolConnection id (some l) d) msgs
      = (true, .PoolConnection id (some (l ++ msgs)) d) := by
  induction msgs generalizing l with
  | nil => simp [push_all]
  | cons m rest ih =>
    simp only [push_all, ConnectedPeer.push_request]
    rw [ih (l ++ [m])]
    simp

/-- The collection walk only updates peers in place (`List.set`), so it
preserves the length of the snapshot list. -/
theorem collect_loop_length (len target : Nat) (timeout : Nat → Bool) (sp : Nat)
    (fuel : Nat) :
    ∀ (idx : Nat) (peers : List (ConnectedPeer T)) (batch : List T)
      (dced : List Nat),
      (collect_loop len target timeout sp fuel idx peers batch dced).1.length
        = peers.length := by
  induction fuel with
  | zero => intro idx peers batch dced; rfl
  | succ n ih =>
    intro idx peers batch dced
    simp only [collect_loop]
    split
    · rw [ih]
    · split
      · rw [ih]; simp
      · split
        · split
          · simp
          · split
            · simp
            · rw [ih]; simp
        · rw [ih]; simp

/-- Membership in the cache after the purge fold implies membership in the
original cache. -/
theorem purge_fold_subset (clients : List Nat)
    (cache : List (Nat × ConnectedPeer T)) (kv : Nat × ConnectedPeer T)
    (h : kv ∈ clients.foldl
      (fun c i => c.filter (fun kv => kv.1 ≠ i)) cache) :
    kv ∈ cache := by
  induction clients generalizing cache with
  | nil => simpa using h
  | cons a rest ih =>
    simp only [List.foldl] at h
    exact List.mem_of_mem_filter (ih _ h)

/-- After the purge fold, no surviving cache entry carries any of the
purged ids. -/
theorem purge_fold_not_mem (clients : List Nat)
    (cache : List (Nat × ConnectedPeer T)) (id : Nat) (hid : id ∈ clients) :
    ∀ kv ∈ clients.foldl
      (fun c i => c.filter (fun kv => kv.1 ≠ i)) cache, kv.1 ≠ id := by
  induction clients generalizing cache with
  | nil => cases hid
  | cons a rest ih =>
    intro kv hkv
    rcases List.mem_cons.mp hid with rfl | hid2
    · simp only [List.foldl] at hkv
      have hmem := purge_fold_subset rest _ kv hkv
      have h2 := List.mem_filter.mp hmem
      simpa using h2.2
    · simp only [List.foldl] at hkv
      exact ih _ hid2 kv hkv

/-- When every pool in the map is at (or beyond) its own client limit, the
walk over the pools fails to place the client. -/
theorem tryPools_full_none (pools : List (Nat × PoolState T))
    (c : ConnectedPeer T)
    (hfull : ∀ kp ∈ pools, kp.2.client_limit ≤ kp.2.connected_clients.length) :
    tryPools pools c = none := by
  induction pools generalizing c with
  | nil => rfl
  | cons kp rest ih =>
    obtain ⟨k, p⟩ := kp
    have h := hfull (k, p) (by simp)
    have hn : ¬ (p.connected_clients.length < p.client_limit) := by
      simp at h ⊢; omega
    have hadd : p.attempt_to_add c = .error c := by
      simp [PoolState.attempt_to_add, hn]
    simp [tryPools, hadd,
      ih c (fun q hq => hfull q (List.mem_cons_of_mem _ hq))]

/-- Lookup misses when every stored key is strictly below the key sought. -/
theorem lookup_none_of_keys_lt (m : List (Nat × α)) (k : Nat)
    (h : ∀ kp ∈ m, kp.1 < k) : m.lookup k = none := by
  induction m with
  | nil => rfl
  | cons a rest ih =>
    obtain ⟨k0, v0⟩ := a
    have h1 := h (k0, v0) (by simp)
    have hne : (k == k0) = false := by
      simp at h1 ⊢
      omega
    have hstep : List.lookup k ((k0, v0) :: rest) = List.lookup k rest := by
      simp [List.lookup, hne]
    rw [hstep]
    exact ih fun q hq => h q (List.mem_cons_of_mem _ hq)

/-- When every existing pool id is below the counter, the very first
candidate drawn by `get_pool_id` is fresh, so it is returned and the
counter advances by one. -/
theorem get_pool_id_fresh (g : ConnectedPeersGroup T)
    (h : ∀ kp ∈ g.client_pools, kp.1 < g.pool_id_counter) :
    get_pool_id g = .ok (g.pool_id_counter, g.pool_id_counter + 1) := by
  simp [get_pool_id, get_pool_id_loop, lookup_none_of_keys_lt _ _ h]

/-- Looking up the inserted key in a `btreeInsert` result finds the
inserted value. -/
theorem btreeInsert_lookup_self (m : List (Nat × α)) (k : Nat) (v : α) :
    (btreeInsert m k v).lookup k = some v := by
  induction m with
  | nil => simp [btreeInsert, List.lookup]
  | cons a rest ih =>
    obtain ⟨k0, v0⟩ := a
    simp only [btreeInsert]
    by_cases h1 : k < k0
    · simp [h1, List.lookup]
    · by_cases h2 : k = k0
      · simp [h1, h2, List.lookup]
      · have hne : (k == k0) = false := by simp [h2]
        simp [h1, h2, List.lookup, hne, ih]

/-- Inserting a key absent from the map grows it by one entry. -/
theorem btreeInsert_length_fresh (m : List (Nat × α)) (k : Nat) (v : α)
    (h : ∀ kp ∈ m, kp.1 ≠ k) :
    (btreeInsert m k v).length = m.length + 1 := by
  induction m with
  | nil => rfl
  | cons a rest ih =>
    obtain ⟨k0, v0⟩ := a
    have h0 := h (k0, v0) (by simp)
    simp only [btreeInsert]
    by_cases h1 : k < k0
    · simp [h1]
    · have h2 : ¬ k = k0 := fun e => h0 (by simp [e])
      simp only [if_neg h1, if_neg h2, List.length_cons]
      rw [ih fun q hq => h q (List.mem_cons_of_mem _ hq)]

/-! ### Claim theorems -/

/-- C1: evaluated at the failing input — a live pooled sink with an empty
buffer.  `ConnectedPeer::disconnect` stores `false` into the `disconnected`
flag and leaves the queue intact, so after `disconnect()` the sink reports
`is_dc = false`, `push_request` still returns `Ok` and buffers the message,
and a subsequent `dump_requests` still succeeds, returning the pushed
message — contradicting the claim that pushes fail with `PooledClosed`,
that drains fail, and that the flag reads `true`. -/
theorem c1_disconnect_leaves_sink_usable :
    ConnectedPeer.disconnect (.PoolConnection 9 (some ([] : List Nat)) false)
        = .PoolConnection 9 (some []) false
    ∧ ConnectedPeer.is_dc
        (ConnectedPeer.disconnect (.PoolConnection 9 (some ([] : List Nat)) false))
        = false
    ∧ (ConnectedPeer.push_request
        (ConnectedPeer.disconnect (.PoolConnection 9 (some ([] : List Nat)) false))
        42).1 = .ok ()
    ∧ (ConnectedPeer.dump_requests
        (ConnectedPeer.push_request
          (ConnectedPeer.disconnect (.PoolConnection 9 (some ([] : List Nat)) false))
          42).2 []).1 = .ok [42] :=
  ⟨rfl, rfl, rfl, rfl⟩

/-- C2: evaluated at the failing input — two live clients, the one at the
walk's start point holding two messages, `batch_target_size = 2`, timeout
never expiring.  Because the source checks `index % connected_peers.len()
== 0` and that holds already at `index = 0`, the batch is sealed for
reaching the target right after draining the first client: the result is
`Ok [1, 2]` while the second live client still holds its message `3`
(its queue in the resulting pool state is untouched), so it was never
drained — contradicting the claim that every live client is consulted
before the batch can be sealed by size. -/
theorem c2_first_client_can_seal_batch :
    collect_requests 4 (fun _ => false) 0 2
        ([.PoolConnection 0 (some [1, 2]) false,
          .PoolConnection 1 (some [3]) false] : List (ConnectedPeer Nat))
        [] 7
      = { result := .ok [1, 2],
          pool := [.PoolConnection 0 (some []) false,
                   .PoolConnection 1 (some [3]) false],
          cache := [], count := 7 } :=
  rfl

/-- C3: evaluated at the failing input — `c3Group`, where peer 5 is already
present.  `ConnectedPeersGroup::init_client 5` unconditionally
`fetch_add`s the connected-client counter, so the count rises from 1 to 2
even though the directory already contained peer 5; and the displaced old
sink, after the `disconnect()` call on it, still reports `is_dc = false`
and still accepts pushes (`Ok`) — contradicting the claim that the count
is unchanged and that the old sink's pushes subsequently fail. -/
theorem c3_reregister_double_counts_and_old_sink_alive :
    Option.map ConnectedPeersGroup.connected_clients
        ((c3Group.init_client 5).group) = some 2
    ∧ (c3Group.init_client 5).old_conn
        = some (.PoolConnection 5 (some []) false)
    ∧ ConnectedPeer.is_dc (.PoolConnection 5 (some ([] : List Nat)) false)
        = false
    ∧ (ConnectedPeer.push_request
        (.PoolConnection 5 (some ([] : List Nat)) false) 42).1 = .ok () :=
  ⟨rfl, rfl, rfl, rfl⟩

/-- C4 (counterexample): with `batch_sleep_micros = 2` the drawn interval is
`[(2/4)*3, (2/4)*5] = [0, 0]`, so the sleep duration `0` lies in the
interval yet `0 < 0.75 * 2` (stated integrally as `¬ (3 * 2 ≤ 4 * 0)`),
refuting "the sleep duration is never less than 0.75·S". -/
theorem c4_sleep_below_three_quarters :
    (batch_sleep_bounds 2).1 ≤ 0 ∧ 0 ≤ (batch_sleep_bounds 2).2
    ∧ ¬ (3 * 2 ≤ 4 * 0) := by
  decide

/-- C4 (amended): every sleep duration `r` drawn from the computed interval
`[(S/4)*3, (S/4)*5]` satisfies `r ≤ 1.25·S` (integrally `4·r ≤ 5·S`), and
when `S` is divisible by 4 the interval is exactly `[0.75·S, 1.25·S]`
(integrally `3·S ≤ 4·r ∧ 4·r ≤ 5·S`). -/
theorem c4_sleep_bounds (S r : Nat)
    (hlo : (batch_sleep_bounds S).1 ≤ r) (hhi : r ≤ (batch_sleep_bounds S).2) :
    4 * r ≤ 5 * S ∧ (S % 4 = 0 → 3 * S ≤ 4 * r ∧ 4 * r ≤ 5 * S) := by
  simp only [batch_sleep_bounds] at hlo hhi
  omega

/-- C4 witness: for `S = 4` the interval is `[3, 5]`; the drawn value `3`
satisfies the amended bounds. -/
theorem c4_sleep_bounds_witness :
    (batch_sleep_bounds 4).1 ≤ 3 ∧ 3 ≤ (batch_sleep_bounds 4).2
    ∧ (4 * 3 ≤ 5 * 4 ∧ (4 % 4 = 0 → 3 * 4 ≤ 4 * 3 ∧ 4 * 3 ≤ 5 * 4)) :=
  ⟨by decide, by decide, c4_sleep_bounds 4 3 (by decide) (by decide)⟩

/-- C5: on a replica node whose batch output channel is empty at the
timeout, `receive_from_clients` returns `Ok` of the empty list for every
timeout value; on a client node (whose `client_rx` is `None` by
construction in `PeerIncomingRqHandling::new`), it fails with
`NoClientsConnected` for every timeout argument. -/
theorem c5_receive_from_clients_timeout_and_client_node
    (T : Type) (t : Nat) (tm : Option Nat) :
    receive_from_clients (some ([] : List (List T))) (some t)
        = some (.ok [])
    ∧ receive_from_clients (mkClientRx T .Client) tm
        = some (.error .NoClientsConnected) :=
  ⟨rfl, rfl⟩

/-- C6: pushing any sequence of messages onto a freshly registered (live,
empty-buffered) pooled sink succeeds for every message, and a subsequent
drain with an empty replacement buffer returns exactly the pushed messages
in push order, leaving the sink's buffer equal to the empty replacement
buffer.  (The helper `push_all_pool_connection` shows the general form for
an arbitrary starting buffer `l`: the drain yields `l ++ msgs`.) -/
theorem c6_push_then_drain (id : Nat) (msgs : List T) :
    (push_all (.PoolConnection id (some []) false) msgs).1 = true
    ∧ ConnectedPeer.dump_requests
        (push_all (.PoolConnection id (some []) false) msgs).2 []
        = (.ok msgs, .PoolConnection id (some []) false) := by
  rw [push_all_pool_connection]
  simp [ConnectedPeer.dump_requests]

/-- C8: a pool already holding exactly `client_limit` sinks refuses a
further sink, handing it back as `Err`; a pool under the limit appends it;
and when every existing pool of a group is full (and the configured
clients-per-pool is positive, with the pool-id counter past every existing
pool id, as `init_client` maintains), registering a client makes the group
allocate a fresh pool that contains exactly that client, growing the pool
map by one. -/
theorem c8_pool_capacity_and_new_pool (T : Type) (p : PoolState T)
    (c : ConnectedPeer T) (g : ConnectedPeersGroup T) (peer_id : Nat)
    (hfull : ∀ kp ∈ g.client_pools,
      kp.2.client_limit ≤ kp.2.connected_clients.length)
    (hk : 0 < g.clients_per_pool)
    (hfresh : ∀ kp ∈ g.client_pools, kp.1 < g.pool_id_counter) :
    (p.connected_clients.length = p.client_limit →
      p.attempt_to_add c = .error c)
    ∧ (p.connected_clients.length < p.client_limit →
      p.attempt_to_add c
        = .ok { p with connected_clients := p.connected_clients ++ [c] })
    ∧ (∃ g2, (g.init_client peer_id).group = some g2
        ∧ g2.client_pools.lookup g.pool_id_counter
            = some { pool_id := g.pool_id_counter,
                     connected_clients
                       := [.PoolConnection peer_id (some []) false],
                     client_limit := g.clients_per_pool }
        ∧ g2.client_pools.length = g.client_pools.length + 1) := by
  refine ⟨?_, ?_, ?_⟩
  · intro h
    simp [PoolState.attempt_to_add, h]
  · intro h
    simp [PoolState.attempt_to_add, h]
  · simp only [ConnectedPeersGroup.init_client]
    rw [tryPools_full_none _ _ hfull]
    rw [get_pool_id_fresh _ (by simpa using hfresh)]
    have hadd : (PoolState.attempt_to_add
        { pool_id := g.pool_id_counter,
          connected_clients := ([] : List (ConnectedPeer T)),
          client_limit := g.clients_per_pool }
        (.PoolConnection peer_id (some []) false))
        = .ok { pool_id := g.pool_id_counter,
                connected_clients := [.PoolConnection peer_id (some []) false],
                client_limit := g.clients_per_pool } := by
      simp [PoolState.attempt_to_add, hk]
    simp only [hadd]
    refine ⟨_, rfl, ?_, ?_⟩
    · exact btreeInsert_lookup_self _ _ _
    · exact btreeInsert_length_fresh _ _ _
        (fun kp hkp => Nat.ne_of_lt (hfresh kp hkp))

/-- C8 witness: a group whose single pool (limit 1) is full: the full pool
refuses a further sink, an under-capacity pool accepts one, and
`init_client` allocates pool 1 holding exactly the new client. -/
theorem c8_pool_capacity_and_new_pool_witness :
    ((∀ kp ∈ [(0, PoolState.mk 0 [ConnectedPeer.PoolConnection 1
          (some ([] : List Nat)) false] 1)],
        kp.2.client_limit ≤ kp.2.connected_clients.length)
      ∧ 0 < 1
      ∧ (∀ kp ∈ [(0, PoolState.mk 0 [ConnectedPeer.PoolConnection 1
          (some ([] : List Nat)) false] 1)], kp.1 < 1))
    ∧ ((PoolState.mk 0 [ConnectedPeer.PoolConnection 1
          (some ([] : List Nat)) false] 1).connected_clients.length
          = (PoolState.mk 0 [ConnectedPeer.PoolConnection 1
              (some ([] : List Nat)) false] 1).client_limit →
        (PoolState.mk 0 [ConnectedPeer.PoolConnection 1
          (some ([] : List Nat)) false] 1).attempt_to_add
            (.PoolConnection 2 (some []) false)
          = .error (.PoolConnection 2 (some []) false))
    ∧ (∃ g2,
        ((ConnectedPeersGroup.mk
            [(0, PoolState.mk 0 [ConnectedPeer.PoolConnection 1
                (some ([] : List Nat)) false] 1)]
            [(1, ConnectedPeer.PoolConnection 1 (some []) false)]
            1 16384 4 1 1).init_client 2).group = some g2
        ∧ g2.client_pools.lookup 1
            = some { pool_id := 1,
                     connected_clients
                       := [.PoolConnection 2 (some []) false],
                     client_limit := 1 }
        ∧ g2.client_pools.length
            = (ConnectedPeersGroup.mk
                [(0, PoolState.mk 0 [ConnectedPeer.PoolConnection 1
                    (some ([] : List Nat)) false] 1)]
                [(1, ConnectedPeer.PoolConnection 1 (some []) false)]
                1 16384 4 1 1).client_pools.length + 1) := by
  refine ⟨⟨by decide, by decide, by decide⟩, ?_, ?_⟩
  · exact (c8_pool_capacity_and_new_pool Nat _
      (.PoolConnection 2 (some []) false)
      (ConnectedPeersGroup.mk
        [(0, PoolState.mk 0 [ConnectedPeer.PoolConnection 1
            (some ([] : List Nat)) false] 1)]
        [(1, ConnectedPeer.PoolConnection 1 (some []) false)]
        1 16384 4 1 1) 2
      (by decide) (by decide) (by decide)).1
  · exact (c8_pool_capacity_and_new_pool Nat
      (PoolState.mk 0 [ConnectedPeer.PoolConnection 1
        (some ([] : List Nat)) false] 1)
      (.PoolConnection 2 (some []) false)
      (ConnectedPeersGroup.mk
        [(0, PoolState.mk 0 [ConnectedPeer.PoolConnection 1
            (some ([] : List Nat)) false] 1)]
        [(1, ConnectedPeer.PoolConnection 1 (some []) false)]
        1 16384 4 1 1) 2
      (by decide) (by decide) (by decide)).2.2

/-- C9: while the intake retains a producer handle (`producers ≥ 1`),
`receive_from_replicas` never panics: with a timeout it delivers either a
message or `None` on timeout/empty; and whenever the underlying
`recv_timeout` does report a disconnected channel the code path is the
`unreachable!()` panic, never a returned value. -/
theorem c9_receive_from_replicas_no_dc (T : Type) (c : SyncChannelRx T)
    (tm : Option Nat) (hp : 1 ≤ c.producers) :
    receive_from_replicas c tm ≠ .panicked
    ∧ (∀ t0, receive_from_replicas c (some t0) = .delivered none
        ∨ ∃ m, receive_from_replicas c (some t0) = .delivered (some m))
    ∧ (∀ (c2 : SyncChannelRx T) (t0 : Nat),
        chan_recv_timeout c2 = .error .ChannelDc →
        receive_from_replicas c2 (some t0) = .panicked) := by
  refine ⟨?_, ?_, ?_⟩
  · cases tm with
    | none =>
      cases hq : c.queue with
      | nil =>
        simp only [receive_from_replicas, hq]
        have : ¬ c.producers = 0 := by omega
        simp [this]
      | cons t rest => simp [receive_from_replicas, hq]
    | some t0 =>
      simp only [receive_from_replicas, chan_recv_timeout]
      cases hq : c.queue with
      | nil =>
        have : ¬ c.producers = 0 := by omega
        simp [this]
      | cons t rest => simp
  · intro t0
    simp only [receive_from_replicas, chan_recv_timeout]
    cases hq : c.queue with
    | nil =>
      have : ¬ c.producers = 0 := by omega
      simp [this]
    | cons t rest => right; exact ⟨t, by simp⟩
  · intro c2 t0 hdc
    simp [receive_from_replicas, hdc]

/-- C9 witness: an empty channel with one live producer, received with a
timeout, delivers `None` without panicking. -/
theorem c9_receive_from_replicas_no_dc_witness :
    (1 ≤ (SyncChannelRx.mk ([] : List Nat) 1).producers)
    ∧ (receive_from_replicas (SyncChannelRx.mk ([] : List Nat) 1) (some 5)
          ≠ .panicked) :=
  ⟨by decide,
   (c9_receive_from_replicas_no_dc Nat (SyncChannelRx.mk [] 1) (some 5)
      (by decide)).1⟩

/-- C7: `collect_requests` returns `ClosePool` exactly when the pool's sink
list it leaves behind is empty — which happens in precisely two
situations: the snapshot taken at the start of the cycle is empty (first
conjunct), or the removal of the dead-listed sinks at the end of the cycle
empties the list (in which case the dead list is non-empty and, as the
final conjunct states, every dead-listed id has been purged from the group
cache by the time `ClosePool` is returned). -/
theorem c7_close_pool_exactly (T : Type) (fuel : Nat) (timeout : Nat → Bool)
    (sp target : Nat) (pool : List (ConnectedPeer T))
    (cache : List (Nat × ConnectedPeer T)) (count : Nat) :
    (pool = [] →
      (collect_requests fuel timeout sp target pool cache count).result
        = .error .ClosePool)
    ∧ ((collect_requests fuel timeout sp target pool cache count).result
          = .error .ClosePool
        ↔ (collect_requests fuel timeout sp target pool cache count).pool = [])
    ∧ (pool ≠ [] →
        (collect_requests fuel timeout sp target pool cache count).result
          = .error .ClosePool →
        (collect_loop pool.length target timeout sp fuel 0 pool [] []).2.2 ≠ []
        ∧ ∀ id ∈ (collect_loop pool.length target timeout sp fuel 0 pool
            [] []).2.2,
          ∀ kv ∈ (collect_requests fuel timeout sp target pool cache
              count).cache,
            kv.1 ≠ id) := by
  by_cases hlen : pool.length = 0
  · have hpool : pool = [] := List.length_eq_zero.mp hlen
    subst hpool
    refine ⟨fun _ => rfl, ?_, fun hne _ => absurd rfl hne⟩
    simp [collect_requests]
  · have hpool : pool ≠ [] := fun h => hlen (by simp [h])
    have hloop := collect_loop_length (T := T) pool.length target timeout sp
      fuel 0 pool [] []
    by_cases hd : (collect_loop pool.length target timeout sp fuel 0 pool
        [] []).2.2.isEmpty
    · have hout : collect_requests fuel timeout sp target pool cache count
          = { result := .ok (collect_loop pool.length target timeout sp fuel
                0 pool [] []).2.1,
              pool := (collect_loop pool.length target timeout sp fuel 0 pool
                [] []).1,
              cache := cache, count := count } := by
        simp only [collect_requests, if_neg hlen, hd, if_pos]
      refine ⟨fun h => absurd h hpool, ?_, fun _ h => ?_⟩
      · rw [hout]
        constructor
        · intro h; cases h
        · intro h
          have h2 : (collect_loop pool.length target timeout sp fuel 0 pool
              [] []).1 = [] := h
          rw [h2] at hloop
          exact absurd hloop.symm hlen
      · rw [hout] at h; cases h
    · have hout : collect_requests fuel timeout sp target pool cache count
          = (if (removeDced (collect_loop pool.length target timeout sp fuel
                0 pool [] []).1
              (collect_loop pool.length target timeout sp fuel 0 pool
                [] []).2.2).isEmpty
            then
              { result := .error .ClosePool,
                pool := removeDced (collect_loop pool.length target timeout sp
                  fuel 0 pool [] []).1
                  (collect_loop pool.length target timeout sp fuel 0 pool
                    [] []).2.2,
                cache := (del_cached_clients cache count
                  (collect_loop pool.length target timeout sp fuel 0 pool
                    [] []).2.2).1,
                count := (del_cached_clients cache count
                  (collect_loop pool.length target timeout sp fuel 0 pool
                    [] []).2.2).2 }
            else
              { result := .ok (collect_loop pool.length target timeout sp fuel
                  0 pool [] []).2.1,
                pool := removeDced (collect_loop pool.length target timeout sp
                  fuel 0 pool [] []).1
                  (collect_loop pool.length target timeout sp fuel 0 pool
                    [] []).2.2,
                cache := (del_cached_clients cache count
                  (collect_loop pool.length target timeout sp fuel 0 pool
                    [] []).2.2).1,
                count := (del_cached_clients cache count
                  (collect_loop pool.length target timeout sp fuel 0 pool
                    [] []).2.2).2 }) := by
        simp only [collect_requests, if_neg hlen, hd]
        simp
      have hdne : (collect_loop pool.length target timeout sp fuel 0 pool
          [] []).2.2 ≠ [] := by
        intro h
        rw [h] at hd
        exact hd rfl
      refine ⟨fun h => absurd h hpool, ?_, fun _ _ => ⟨hdne, ?_⟩⟩
      · rw [hout]
        by_cases he : (removeDced (collect_loop pool.length target timeout sp
            fuel 0 pool [] []).1
            (collect_loop pool.length target timeout sp fuel 0 pool
              [] []).2.2).isEmpty
        · rw [if_pos he]
          exact ⟨fun _ => List.isEmpty_iff.mp he, fun _ => rfl⟩
        · rw [if_neg he]
          constructor
          · intro h; cases h
          · intro h
            exact absurd (List.isEmpty_iff.mpr h) he
      · intro id hid kv hkv
        rw [hout] at hkv
        by_cases he : (removeDced (collect_loop pool.length target timeout sp
            fuel 0 pool [] []).1
            (collect_loop pool.length target timeout sp fuel 0 pool
              [] []).2.2).isEmpty
        · rw [if_pos he] at hkv
          exact purge_fold_not_mem _ cache id hid kv hkv
        · rw [if_neg he] at hkv
          exact purge_fold_not_mem _ cache id hid kv hkv

/-- C7 witness: a pool whose only sink is dead-listed during the cycle (its
queue option is `None`, so its dump fails): the cycle removes it, empties
the pool, purges the cache, and returns `ClosePool`. -/
theorem c7_close_pool_exactly_witness :
    (([ConnectedPeer.PoolConnection 3 none false] : List (ConnectedPeer Nat))
        ≠ [])
    ∧ ((collect_requests 4 (fun _ => false) 0 2
          ([.PoolConnection 3 none false] : List (ConnectedPeer Nat))
          [(3, .PoolConnection 3 none false)] 1).result
        = .error .ClosePool
      ↔ (collect_requests 4 (fun _ => false) 0 2
          ([.PoolConnection 3 none false] : List (ConnectedPeer Nat))
          [(3, .PoolConnection 3 none false)] 1).pool = []) :=
  ⟨List.cons_ne_nil _ _,
   (c7_close_pool_exactly Nat 4 (fun _ => false) 0 2
      [.PoolConnection 3 none false]
      [(3, .PoolConnection 3 none false)] 1).2.1⟩

/-- C10: on a client node (`client_rx = None` by construction),
`rqs_len_from_clients` returns `0` rather than failing, while both
`receive_from_clients` (with every timeout argument) and
`try_receive_from_clients` fail with `NoClientsConnected`. -/
theorem c10_len_zero_but_receive_fails (T : Type) (tm : Option Nat) :
    rqs_len_from_clients (mkClientRx T .Client) = 0
    ∧ receive_from_clients (mkClientRx T .Client) tm
        = some (.error .NoClientsConnected)
    ∧ try_receive_from_clients (mkClientRx T .Client)
        = .error .NoClientsConnected :=
  ⟨rfl, rfl, rfl⟩

end AtlasComm
